import Mathlib

/-!
Shallow embedding of the XGOOA invasive-species risk prediction backend.

The repository holds two variants of the backend module:
`backend/backend.py` (embedded below in namespace `Backend`) and
`XGOOA - Copy/backend/backend.py` (namespace `CopyBackend`).
Floating-point numbers of the source are modelled as exact numbers:
rationals where computations are decidable, reals where the
transcendental `exp`/`sqrt` of the similarity engine is needed.
The trained XGBoost model and its preprocessor are external binary
artifacts; the pipeline abstracts them as an opaque per-row
probability function `rawProb`, exactly as the spec treats the
Risk Model Adapter as a black box.
-/

/-- Lowercased character list of a string, modelling case-insensitive
comparison (`case=False` of `pandas.Series.str.contains`). -/
def lowerChars (s : String) : List Char :=
  s.data.map Char.toLower

/-- Substring test on character lists: `needle` occurs contiguously in
`hay`. -/
def containsSub (needle hay : List Char) : Bool :=
  hay.tails.any (fun t => needle.isPrefixOf t)

/-- Case-insensitive substring test, modelling
`Series.str.contains(pat, case=False)` (the lake-name patterns contain
no regex metacharacters, so the regex match is a literal substring
match). -/
def containsCI (hay pat : String) : Bool :=
  containsSub (lowerChars pat) (lowerChars hay)

/-- Replacing each underscore by a space, modelling
`lake_name.replace('_', ' ')`. -/
def underscoreToSpace (s : String) : String :=
  String.mk (s.data.map (fun c => if c = '_' then ' ' else c))

/-- One row of `super_dataset.csv` restricted to the fields the scoring
pipeline reads: the species key, the free-text locality field used by
the presence lookup (`none` models a NaN entry, matching `na=False`),
and the temperature-preference bounds used by feature engineering.
The remaining trait columns are only ever passed through unchanged into
the opaque model, so they are absorbed into the `rawProb` abstraction. -/
structure DatasetRecord (α : Type) where
  species : String
  waterbody_name : Option String
  temp_pref_min : α
  temp_pref_max : α

/-- One row of the hardcoded `luzon_lakes` table. -/
structure Lake (α : Type) where
  name : String
  region : String
  ph : α
  salinity : α
  dissolved_oxygen : α
  bod : α
  turbidity : α
  temperature : α
  latitude : α
  longitude : α

/-- A 6-dimensional environmental reading, ordered as the source orders
`np.array([ph, salinity, do, bod, turbidity, temperature])`. -/
structure EnvReading (α : Type) where
  ph : α
  salinity : α
  dissolved_oxygen : α
  bod : α
  turbidity : α
  temperature : α

/-- The flat model-ready feature row built per lake by
`get_risk_predictions`: species trait fields, waterbody baseline
fields, user inputs, and the six engineered columns. -/
structure FeatureRow (α : Type) where
  waterbody_name : String
  temp_pref_min : α
  temp_pref_max : α
  wb_ph_min : α
  wb_ph_max : α
  wb_salinity_min : α
  wb_salinity_max : α
  wb_do_min : α
  wb_do_max : α
  wb_bod_min : α
  wb_bod_max : α
  wb_turbidity_min : α
  wb_turbidity_max : α
  wb_temp_min : α
  wb_temp_max : α
  input_temp : α
  input_ph : α
  input_salinity : α
  input_do : α
  input_bod : α
  input_turbidity : α
  temp_pref_range : α
  wb_ph_range : α
  wb_temp_range : α
  temp_in_pref_range : α
  fish_ph_pref : α
  ph_difference : α

/-- One element of the `predictions` list returned by
`get_risk_predictions`. -/
structure Prediction (α : Type) where
  lake_name : String
  region : String
  latitude : α
  longitude : α
  raw_score : α
  adjusted_score : α
  risk_level : String
  similarity : α
  presence : String

/-- The success payload of `get_risk_predictions`: the sorted
predictions plus the optional low-confidence warning field. -/
structure RiskResult (α : Type) where
  predictions : List (Prediction α)
  warning : Option String

section SharedHelpers

variable {α : Type} [LinearOrderedField α]

/-- Embeds `get_species_data`: the first dataset row whose `species`
column equals the requested name (`species_row.iloc[0]`); `none` models
the `ValueError` raised when the filter comes back empty. -/
def get_species_data (dataset : List (DatasetRecord α)) (species_name : String) :
    Option (DatasetRecord α) :=
  dataset.find? (fun r => r.species == species_name)

/-- Whether one dataset record matches a lake name: its locality text
contains the underscore-to-space-normalized lake name case-insensitively;
a NaN locality (here `none`) never matches (`na=False`). -/
def recordMatchesLake (r : DatasetRecord α) (lake_name : String) : Bool :=
  match r.waterbody_name with
  | some w => containsCI w (underscoreToSpace lake_name)
  | none => false

/-- Maximum of a list, modelling `numpy.ndarray.max()`; `none` for the
empty list (where numpy would fault — unreachable, the lake table is a
nonempty constant). -/
def listMax : List α → Option α
  | [] => none
  | x :: xs =>
    match listMax xs with
    | none => some x
    | some m => some (max x m)

/-- Embeds the per-lake feature-row construction of
`get_risk_predictions`: the species trait fields are copied through,
every waterbody min/max pair is set to the single lake baseline value,
the user inputs are attached, and the six engineered columns are
computed by the same formulas the source applies to the DataFrame. -/
def buildFeatureRow (sp : DatasetRecord α) (lake : Lake α)
    (temperature ph salinity dox bod turbidity : α) : FeatureRow α :=
  let wb_ph_min := lake.ph
  let wb_ph_max := lake.ph
  let wb_temp_min := lake.temperature
  let wb_temp_max := lake.temperature
  let fish_ph_pref := (wb_ph_min + wb_ph_max) / 2
  { waterbody_name := lake.name
    temp_pref_min := sp.temp_pref_min
    temp_pref_max := sp.temp_pref_max
    wb_ph_min := wb_ph_min
    wb_ph_max := wb_ph_max
    wb_salinity_min := lake.salinity
    wb_salinity_max := lake.salinity
    wb_do_min := lake.dissolved_oxygen
    wb_do_max := lake.dissolved_oxygen
    wb_bod_min := lake.bod
    wb_bod_max := lake.bod
    wb_turbidity_min := lake.turbidity
    wb_turbidity_max := lake.turbidity
    wb_temp_min := wb_temp_min
    wb_temp_max := wb_temp_max
    input_temp := temperature
    input_ph := ph
    input_salinity := salinity
    input_do := dox
    input_bod := bod
    input_turbidity := turbidity
    temp_pref_range := sp.temp_pref_max - sp.temp_pref_min
    wb_ph_range := wb_ph_max - wb_ph_min
    wb_temp_range := wb_temp_max - wb_temp_min
    temp_in_pref_range :=
      if sp.temp_pref_min ≤ temperature ∧ temperature ≤ sp.temp_pref_max then 1 else 0
    fish_ph_pref := fish_ph_pref
    ph_difference := |fish_ph_pref - ph| }

/-- The 6-tuple baseline reading of a lake, in the order the source
builds `lake_env`. -/
def lakeEnv (lake : Lake α) : EnvReading α :=
  { ph := lake.ph
    salinity := lake.salinity
    dissolved_oxygen := lake.dissolved_oxygen
    bod := lake.bod
    turbidity := lake.turbidity
    temperature := lake.temperature }

end SharedHelpers

/-- Euclidean distance of two 6-dimensional readings, modelling
`np.linalg.norm(user_env - lake_env)`. -/
noncomputable def distance6 (u l : EnvReading ℝ) : ℝ :=
  Real.sqrt ((u.ph - l.ph) ^ 2 + (u.salinity - l.salinity) ^ 2 +
    (u.dissolved_oxygen - l.dissolved_oxygen) ^ 2 + (u.bod - l.bod) ^ 2 +
    (u.turbidity - l.turbidity) ^ 2 + (u.temperature - l.temperature) ^ 2)

/-- Exponential decay of a distance, the `np.exp(-distance / 10)` step
of `calculate_similarity`. -/
noncomputable def similarityOfDistance (d : ℝ) : ℝ :=
  Real.exp (-d / 10)

/-- Embeds `calculate_similarity` (identical in both variants). -/
noncomputable def calculate_similarity (user_env lake_env : EnvReading ℝ) : ℝ :=
  similarityOfDistance (distance6 user_env lake_env)

namespace Backend

variable {α : Type} [LinearOrderedField α]

/-- Embeds `categorize_risk` of `backend/backend.py`
(thresholds 0.33 and 0.66). -/
def categorize_risk (score : α) : String :=
  if score < 33 / 100 then "Low"
  else if score < 66 / 100 then "Medium"
  else "High"

/-- Embeds `check_species_presence` of `backend/backend.py`:
the no-match label is the string No. -/
def check_species_presence (dataset : List (DatasetRecord α))
    (species_name lake_name : String) : String :=
  if dataset.any (fun r => r.species == species_name && recordMatchesLake r lake_name)
  then "Yes" else "No"

end Backend

namespace CopyBackend

variable {α : Type} [LinearOrderedField α]

/-- Embeds `categorize_risk` of `XGOOA - Copy/backend/backend.py`
(thresholds 0.34 and 0.67). -/
def categorize_risk (score : α) : String :=
  if score < 34 / 100 then "Low"
  else if score < 67 / 100 then "Medium"
  else "High"

/-- Embeds `check_species_presence` of `XGOOA - Copy/backend/backend.py`:
the no-match label is the string Unknown. -/
def check_species_presence (dataset : List (DatasetRecord α))
    (species_name lake_name : String) : String :=
  if dataset.any (fun r => r.species == species_name && recordMatchesLake r lake_name)
  then "Yes" else "Unknown"

end CopyBackend

namespace Backend

variable {α : Type} [LinearOrderedField α]

/-- Message attached when every lake similarity is below 0.05. -/
def lowConfidenceWarning : String :=
  "Your inputs differ significantly from all lake baselines. Predictions may be unreliable."

/-- The per-lake prediction record assembled by `get_risk_predictions`:
raw probability from the (abstracted) model, similarity against the
lake baseline, multiplicative adjustment, categorization, and the
presence lookup. -/
def mkPrediction (dataset : List (DatasetRecord α))
    (rawProb : FeatureRow α → α) (simFn : EnvReading α → EnvReading α → α)
    (species_name : String) (sp : DatasetRecord α) (user_env : EnvReading α)
    (temperature ph salinity dox bod turbidity : α) (lake : Lake α) : Prediction α :=
  let row := buildFeatureRow sp lake temperature ph salinity dox bod turbidity
  let raw := rawProb row
  let sim := simFn user_env (lakeEnv lake)
  { lake_name := lake.name
    region := lake.region
    latitude := lake.latitude
    longitude := lake.longitude
    raw_score := raw
    adjusted_score := raw * sim
    risk_level := categorize_risk (raw * sim)
    similarity := sim
    presence := check_species_presence dataset species_name lake.name }

/-- The success branch of `get_risk_predictions` once the species row is
found: build one prediction per lake, sort by adjusted score descending
(Python `list.sort` is stable, modelled by the stable `mergeSort`), and
attach the warning when the maximum similarity is below 0.05. -/
def riskResultOf (dataset : List (DatasetRecord α)) (lakes : List (Lake α))
    (rawProb : FeatureRow α → α) (simFn : EnvReading α → EnvReading α → α)
    (species_name : String) (sp : DatasetRecord α)
    (temperature ph salinity dox bod turbidity : α) : RiskResult α :=
  let user_env : EnvReading α := ⟨ph, salinity, dox, bod, turbidity, temperature⟩
  let predictions := lakes.map
    (mkPrediction dataset rawProb simFn species_name sp user_env
      temperature ph salinity dox bod turbidity)
  let similarities := lakes.map (fun lake => simFn user_env (lakeEnv lake))
  let sorted := predictions.mergeSort
    (fun a b => decide (b.adjusted_score ≤ a.adjusted_score))
  { predictions := sorted
    warning :=
      match listMax similarities with
      | some m => if m < 1 / 20 then some lowConfidenceWarning else none
      | none => none }

/-- Embeds `get_risk_predictions` of `backend/backend.py`. The XGBoost
model and preprocessor selected by `model_choice` are abstracted into
the opaque per-row probability function `rawProb` (the batched
`preprocessor.transform` + `predict_proba` over the row DataFrame equals
its per-row application); the similarity function is a parameter so the
structural claims quantify over it, instantiated with
`calculate_similarity` for the numeric claims. The `try/except` that
converts a missing species into the error dictionary is modelled by
`Except`. -/
def get_risk_predictions (dataset : List (DatasetRecord α)) (lakes : List (Lake α))
    (rawProb : FeatureRow α → α) (simFn : EnvReading α → EnvReading α → α)
    (species_name : String)
    (temperature ph salinity dox bod turbidity : α) :
    Except String (RiskResult α) :=
  match get_species_data dataset species_name with
  | none => .error ("Species " ++ species_name ++ " not found in dataset.")
  | some sp => .ok (riskResultOf dataset lakes rawProb simFn species_name sp
      temperature ph salinity dox bod turbidity)

/-- The hardcoded 12-lake `luzon_lakes` table of `backend/backend.py`
(Lake Danao removed). -/
def luzon_lakes : List (Lake ℚ) :=
  [⟨"Laguna de Bay", "IV-A", 9.12, 0.746, 7.54, 1.93, 161.88, 28.5, 14.38333, 121.25⟩,
   ⟨"Lake Taal", "IV-A", 8.32, 0.85, 5.61, 3.82, 28.0, 25.5, 13.9855, 121.0073⟩,
   ⟨"Lake Sampaloc", "IV-A", 7.9, 0.1, 3.1, 8.0, 28.0, 27.8, 14.07848, 121.33035⟩,
   ⟨"Lake Yambo", "IV-A", 7.9, 0.1, 5.0, 2.5, 9.8, 26.5, 14.1186, 121.366⟩,
   ⟨"Lake Pandin", "IV-A", 7.8, 0.1, 7.3, 2.0, 6.5, 25.8, 14.11515, 121.36867⟩,
   ⟨"Lake Mohicap", "IV-A", 7.7, 0.1, 4.1, 6.8, 10.0, 26.2, 14.12194, 121.33444⟩,
   ⟨"Lake Palakpakin", "IV-A", 8.0, 0.1, 5.0, 3.1, 28.0, 24.2, 14.11279, 121.33918⟩,
   ⟨"Lake Nabao", "IV-A", 6.33, 0.25, 3.14, 3.0, 3.5, 28.0, 15.238427, 120.840932⟩,
   ⟨"Lake Tadlac", "IV-A", 7.44, 0.361, 7.27, 2.33, 3.5, 29.5, 14.182179, 121.206409⟩,
   ⟨"Lake Tikub", "IV-A", 8.08, 0.1, 5.53, 2.3, 3.5, 30.4, 13.96369, 121.30597⟩,
   ⟨"Lake Buhi", "V", 7.95, 0.7, 6.89, 1.76, 6.18, 28.5, 13.45, 123.5167⟩,
   ⟨"Lake Bunot", "IV-A", 7.2, 0.1, 7.7, 10.2, 9.0, 28.5, 14.08102, 121.34386⟩]

end Backend

namespace CopyBackend

/-- The hardcoded 13-lake `luzon_lakes` table of
`XGOOA - Copy/backend/backend.py` (includes Lake_Danao). -/
def luzon_lakes : List (Lake ℚ) :=
  [⟨"Laguna_de_Bay", "CALABARZON", 9.12, 0.746, 7.54, 1.93, 161.88, 28.5, 14.4, 121.3⟩,
   ⟨"Lake_Taal", "CALABARZON", 8.32, 0.85, 5.61, 3.82, 28.0, 25.5, 14.0, 120.98⟩,
   ⟨"Sampaloc_Lake", "CALABARZON", 7.9, 0.1, 3.1, 8.0, 28.0, 27.8, 14.1, 121.18⟩,
   ⟨"Yambo_Lake", "CALABARZON", 7.9, 0.1, 5.0, 2.5, 9.8, 26.5, 14.15, 121.2⟩,
   ⟨"Pandin_Lake", "CALABARZON", 7.8, 0.1, 7.3, 2.0, 6.5, 25.8, 14.12, 121.19⟩,
   ⟨"Mohicap_Lake", "CALABARZON", 7.7, 0.1, 4.1, 6.8, 10.0, 26.2, 14.11, 121.17⟩,
   ⟨"Palakpakin_Lake", "CALABARZON", 8.0, 0.1, 5.0, 3.1, 28.0, 24.2, 14.13, 121.21⟩,
   ⟨"Nabao_Lake", "CALABARZON", 6.33, 0.25, 3.14, 3.0, 3.5, 28.0, 14.09, 121.16⟩,
   ⟨"Tadlac_Lake", "CALABARZON", 7.44, 0.361, 7.27, 2.33, 3.5, 29.5, 14.08, 121.15⟩,
   ⟨"Tikub_Lake", "CALABARZON", 8.08, 0.1, 5.53, 2.3, 3.5, 30.4, 14.16, 121.22⟩,
   ⟨"Lake_Buhi", "Bicol", 7.95, 0.7, 6.89, 1.76, 6.18, 28.5, 13.43, 123.52⟩,
   ⟨"Lake_Danao", "Leyte", 7.81, 0.1, 7.15, 2.49, 2.25, 29.5, 11.05, 124.95⟩,
   ⟨"Bunot_Lake", "CALABARZON", 7.2, 0.1, 7.7, 10.2, 9.0, 28.5, 14.14, 121.23⟩]

end CopyBackend

namespace CopyBackend

/-- The fixed ordered keyword groups of
`get_feature_importance_analysis` (`core_params`), tested in
declaration order with first match winning. -/
def core_params : List (String × List String) :=
  [("pH", ["ph", "_ph_", "ph_"]),
   ("Salinity", ["salinity", "sal_", "_sal"]),
   ("Dissolved Oxygen", ["_do_", "_do", "oxygen", "dissolved"]),
   ("BOD", ["bod", "_bod_", "bod_"]),
   ("Turbidity", ["turbidity", "turb_", "_turb"]),
   ("Temperature", ["temp", "_temp_", "temp_"])]

/-- The bucket a feature name falls into: the first parameter of
`core_params` one of whose keywords occurs in the lowercased feature
name, `none` when the feature is unmatched. -/
def bucketOf (feature_name : String) : Option String :=
  (core_params.find? (fun pk => pk.2.any (fun kw => containsCI feature_name kw))).map
    (fun pk => pk.1)

/-- Total importance accumulated into one parameter bucket from a
feature-importance mapping (a list of feature-name/importance pairs in
dict iteration order). -/
def bucketTotal (mapped_importance : List (String × ℚ)) (param : String) : ℚ :=
  ((mapped_importance.filter (fun fi => bucketOf fi.1 = some param)).map
    (fun fi => fi.2)).sum

/-- Number of features accumulated into one parameter bucket. -/
def bucketCount (mapped_importance : List (String × ℚ)) (param : String) : ℕ :=
  (mapped_importance.filter (fun fi => bucketOf fi.1 = some param)).length

/-- The features matching no bucket, kept separately as
`unmatched_features`. -/
def unmatchedList (mapped_importance : List (String × ℚ)) : List (String × ℚ) :=
  mapped_importance.filter (fun fi => bucketOf fi.1 = none)

/-- Sum of all matched importance (`total_matched`). -/
def totalMatched (mapped_importance : List (String × ℚ)) : ℚ :=
  (core_params.map (fun pk => bucketTotal mapped_importance pk.1)).sum

/-- Sum of all unmatched importance (`total_unmatched`). -/
def totalUnmatched (mapped_importance : List (String × ℚ)) : ℚ :=
  ((unmatchedList mapped_importance).map (fun fi => fi.2)).sum

/-- Grand total as the source computes it:
`grand_total = total_matched + total_unmatched`. -/
def grandTotal (mapped_importance : List (String × ℚ)) : ℚ :=
  totalMatched mapped_importance + totalUnmatched mapped_importance

/-- One entry of `aggregated_importance`. -/
structure ImportanceEntry where
  parameter : String
  total_importance : ℚ
  feature_count : ℕ
  percentage : ℚ

/-- The `unmatched_features` summary. -/
structure UnmatchedSummary where
  count : ℕ
  total_importance : ℚ
  percentage : ℚ

/-- The output of `get_feature_importance_analysis` restricted to the
fields the claims are about. -/
structure ImportanceAnalysis where
  aggregated_importance : List ImportanceEntry
  unmatched_features : UnmatchedSummary

/-- Embeds the aggregation core of `get_feature_importance_analysis` of
`XGOOA - Copy/backend/backend.py`, starting from the already-mapped
feature-importance dictionary (the model/preprocessor extraction that
produces that dictionary is an opaque external artifact). Buckets with
zero total are excluded, percentages are guarded by
`if grand_total > 0 else 0.0`, and the aggregated list is sorted by
total importance descending. -/
def get_feature_importance_analysis (mapped_importance : List (String × ℚ)) :
    ImportanceAnalysis :=
  let grand := grandTotal mapped_importance
  let aggregated := ((core_params.filter
      (fun pk => 0 < bucketTotal mapped_importance pk.1)).map
    (fun pk =>
      { parameter := pk.1
        total_importance := bucketTotal mapped_importance pk.1
        feature_count := bucketCount mapped_importance pk.1
        percentage :=
          if 0 < grand then bucketTotal mapped_importance pk.1 / grand * 100
          else 0 : ImportanceEntry })).mergeSort
    (fun a b => decide (b.total_importance ≤ a.total_importance))
  { aggregated_importance := aggregated
    unmatched_features :=
      { count := (unmatchedList mapped_importance).length
        total_importance := totalUnmatched mapped_importance
        percentage :=
          if 0 < grand then totalUnmatched mapped_importance / grand * 100
          else 0 } }

end CopyBackend

/-! Helper lemmas about the similarity engine. -/

lemma distance6_self (r : EnvReading ℝ) : distance6 r r = 0 := by
  simp [distance6]

lemma distance6_nonneg (u l : EnvReading ℝ) : 0 ≤ distance6 u l :=
  Real.sqrt_nonneg _

lemma similarityOfDistance_pos (d : ℝ) : 0 < similarityOfDistance d :=
  Real.exp_pos _

lemma similarityOfDistance_le_one {d : ℝ} (hd : 0 ≤ d) :
    similarityOfDistance d ≤ 1 := by
  unfold similarityOfDistance
  rw [Real.exp_le_one_iff]
  linarith

lemma calculate_similarity_self (r : EnvReading ℝ) :
    calculate_similarity r r = 1 := by
  unfold calculate_similarity
  rw [distance6_self]
  unfold similarityOfDistance
  norm_num

lemma calculate_similarity_pos (u l : EnvReading ℝ) :
    0 < calculate_similarity u l :=
  similarityOfDistance_pos _

lemma calculate_similarity_le_one (u l : EnvReading ℝ) :
    calculate_similarity u l ≤ 1 :=
  similarityOfDistance_le_one (distance6_nonneg u l)

/-- C4: for every 6-dimensional environmental reading r,
calculate_similarity(r, r) = 1.0 exactly; for every pair of readings the
result exp(−distance/10) lies in (0, 1]; and the decay is strictly
decreasing in the Euclidean distance. -/
theorem C4_similarity_identity_range_monotone :
    (∀ r : EnvReading ℝ, calculate_similarity r r = 1) ∧
    (∀ r1 r2 : EnvReading ℝ,
      0 < calculate_similarity r1 r2 ∧ calculate_similarity r1 r2 ≤ 1) ∧
    (∀ d1 d2 : ℝ, 0 ≤ d1 → d1 < d2 →
      similarityOfDistance d2 < similarityOfDistance d1) := by
  refine ⟨calculate_similarity_self, fun r1 r2 =>
    ⟨calculate_similarity_pos r1 r2, calculate_similarity_le_one r1 r2⟩,
    fun d1 d2 _ h12 => ?_⟩
  unfold similarityOfDistance
  exact Real.exp_lt_exp.mpr (by linarith)

/-- Witness for C4 at the concrete reading of the spec's end-to-end
scenario and at distances 0 and 1. -/
theorem C4_similarity_witness :
    calculate_similarity ⟨7.5, 0.5, 6, 2, 10, 27⟩ ⟨7.5, 0.5, 6, 2, 10, 27⟩ = 1 ∧
    (0 < calculate_similarity ⟨7.5, 0.5, 6, 2, 10, 27⟩
        ⟨9.12, 0.746, 7.54, 1.93, 161.88, 28.5⟩ ∧
      calculate_similarity ⟨7.5, 0.5, 6, 2, 10, 27⟩
        ⟨9.12, 0.746, 7.54, 1.93, 161.88, 28.5⟩ ≤ 1) ∧
    similarityOfDistance 1 < similarityOfDistance 0 :=
  ⟨C4_similarity_identity_range_monotone.1 _,
   C4_similarity_identity_range_monotone.2.1 _ _,
   C4_similarity_identity_range_monotone.2.2 0 1 le_rfl zero_lt_one⟩

/-! Helper lemmas for the three-way threshold categorization. -/

lemma threeWayLow {lo hi s : ℚ} :
    (if s < lo then "Low" else if s < hi then "Medium" else "High") = "Low" ↔
      s < lo := by
  split_ifs with h1 h2
  · exact iff_of_true rfl h1
  · exact iff_of_false (by decide) h1
  · exact iff_of_false (by decide) h1

lemma threeWayMedium {lo hi s : ℚ} :
    (if s < lo then "Low" else if s < hi then "Medium" else "High") = "Medium" ↔
      lo ≤ s ∧ s < hi := by
  split_ifs with h1 h2
  · exact iff_of_false (by decide) (fun hc => absurd h1 (not_lt.mpr hc.1))
  · exact iff_of_true rfl ⟨not_lt.mp h1, h2⟩
  · exact iff_of_false (by decide) (fun hc => h2 hc.2)

lemma threeWayHigh {lo hi s : ℚ} (hlh : lo ≤ hi) :
    (if s < lo then "Low" else if s < hi then "Medium" else "High") = "High" ↔
      hi ≤ s := by
  split_ifs with h1 h2
  · exact iff_of_false (by decide)
      (fun hc => absurd hc (not_le.mpr (lt_of_lt_of_le h1 hlh)))
  · exact iff_of_false (by decide) (fun hc => absurd hc (not_le.mpr h2))
  · exact iff_of_true rfl (not_lt.mp h2)

/-- C1 counterexample: the claim asserts categorize(0.33) = "Medium" and
categorize(0.66) = "High", but the `XGOOA - Copy` variant of
`categorize_risk` (thresholds 0.34 / 0.67) returns "Low" at 0.33 and
"Medium" at 0.66. -/
theorem C1_categorize_counterexample :
    CopyBackend.categorize_risk (33 / 100 : ℚ) = "Low" ∧
    CopyBackend.categorize_risk (66 / 100 : ℚ) = "Medium" ∧
    "Low" ≠ "Medium" ∧ "Medium" ≠ "High" := by
  refine ⟨?_, ?_, by decide, by decide⟩ <;> · unfold CopyBackend.categorize_risk; norm_num

/-- C1 amended: the main backend's categorize_risk returns "Low" iff
s < 0.33, "Medium" iff 0.33 ≤ s < 0.66, "High" iff s ≥ 0.66 (so 0.32 is
Low, 0.33 and 0.65 Medium, 0.66 High); the Copy variant uses thresholds
0.34 and 0.67 instead. -/
theorem C1_categorize_boundaries :
    (∀ s : ℚ,
      (Backend.categorize_risk s = "Low" ↔ s < 33 / 100) ∧
      (Backend.categorize_risk s = "Medium" ↔ 33 / 100 ≤ s ∧ s < 66 / 100) ∧
      (Backend.categorize_risk s = "High" ↔ 66 / 100 ≤ s) ∧
      (CopyBackend.categorize_risk s = "Low" ↔ s < 34 / 100) ∧
      (CopyBackend.categorize_risk s = "Medium" ↔ 34 / 100 ≤ s ∧ s < 67 / 100) ∧
      (CopyBackend.categorize_risk s = "High" ↔ 67 / 100 ≤ s)) ∧
    Backend.categorize_risk (32 / 100 : ℚ) = "Low" ∧
    Backend.categorize_risk (33 / 100 : ℚ) = "Medium" ∧
    Backend.categorize_risk (65 / 100 : ℚ) = "Medium" ∧
    Backend.categorize_risk (66 / 100 : ℚ) = "High" := by
  constructor
  · intro s
    unfold Backend.categorize_risk CopyBackend.categorize_risk
    exact ⟨threeWayLow, threeWayMedium, threeWayHigh (by norm_num),
      threeWayLow, threeWayMedium, threeWayHigh (by norm_num)⟩
  · refine ⟨?_, ?_, ?_, ?_⟩ <;> · unfold Backend.categorize_risk; norm_num

/-! Helper lemmas for the presence lookup. -/

lemma recordMatchesLake_iff (r : DatasetRecord ℚ) (lake_name : String) :
    recordMatchesLake r lake_name = true ↔
      ∃ w, r.waterbody_name = some w ∧
        containsCI w (underscoreToSpace lake_name) = true := by
  cases h : r.waterbody_name <;> simp [recordMatchesLake, h]

lemma presenceAny_iff (dataset : List (DatasetRecord ℚ))
    (species_name lake_name : String) :
    (dataset.any (fun r =>
        r.species == species_name && recordMatchesLake r lake_name)) = true ↔
      ∃ r ∈ dataset, r.species = species_name ∧
        ∃ w, r.waterbody_name = some w ∧
          containsCI w (underscoreToSpace lake_name) = true := by
  rw [List.any_eq_true]
  constructor
  · rintro ⟨r, hr, hp⟩
    rw [Bool.and_eq_true, beq_iff_eq, recordMatchesLake_iff] at hp
    exact ⟨r, hr, hp.1, hp.2⟩
  · rintro ⟨r, hr, hs, hw⟩
    refine ⟨r, hr, ?_⟩
    rw [Bool.and_eq_true, beq_iff_eq, recordMatchesLake_iff]
    exact ⟨hs, hw⟩

/-- C2 counterexample: the claim says a non-match is labelled "No" and
"Unknown" is never returned, but the `XGOOA - Copy` variant of
`check_species_presence` returns "Unknown" for a concrete query with no
matching record. -/
theorem C2_presence_counterexample :
    CopyBackend.check_species_presence
      [{ species := "Oreochromis niloticus", waterbody_name := some "Laguna de Bay",
         temp_pref_min := 20, temp_pref_max := 30 : DatasetRecord ℚ }]
      "Anabas testudineus" "Lake_Taal" = "Unknown" ∧
    "Unknown" ≠ "No" := by decide

/-- C2 amended: the presence lookup returns "Yes" exactly when some
dataset record matches the species exactly and contains the
underscore-to-space-normalized lake name case-insensitively in its
waterbody field; the main backend labels every non-match "No" and never
returns "Unknown", while the Copy variant labels every non-match
"Unknown" instead. -/
theorem C2_presence_lookup (dataset : List (DatasetRecord ℚ))
    (species_name lake_name : String) :
    (Backend.check_species_presence dataset species_name lake_name = "Yes" ↔
      ∃ r ∈ dataset, r.species = species_name ∧
        ∃ w, r.waterbody_name = some w ∧
          containsCI w (underscoreToSpace lake_name) = true) ∧
    (Backend.check_species_presence dataset species_name lake_name = "No" ↔
      ¬ ∃ r ∈ dataset, r.species = species_name ∧
        ∃ w, r.waterbody_name = some w ∧
          containsCI w (underscoreToSpace lake_name) = true) ∧
    Backend.check_species_presence dataset species_name lake_name ≠ "Unknown" ∧
    (CopyBackend.check_species_presence dataset species_name lake_name = "Yes" ↔
      ∃ r ∈ dataset, r.species = species_name ∧
        ∃ w, r.waterbody_name = some w ∧
          containsCI w (underscoreToSpace lake_name) = true) ∧
    (CopyBackend.check_species_presence dataset species_name lake_name = "Unknown" ↔
      ¬ ∃ r ∈ dataset, r.species = species_name ∧
        ∃ w, r.waterbody_name = some w ∧
          containsCI w (underscoreToSpace lake_name) = true) := by
  unfold Backend.check_species_presence CopyBackend.check_species_presence
  by_cases h : (dataset.any (fun r =>
      r.species == species_name && recordMatchesLake r lake_name)) = true
  · rw [if_pos h, if_pos h]
    rw [presenceAny_iff] at h
    exact ⟨iff_of_true rfl h, iff_of_false (by decide) (not_not_intro h),
      by decide, iff_of_true rfl h, iff_of_false (by decide) (not_not_intro h)⟩
  · rw [if_neg h, if_neg h]
    rw [presenceAny_iff] at h
    exact ⟨iff_of_false (by decide) h, iff_of_true rfl h, by decide,
      iff_of_false (by decide) h, iff_of_true rfl h⟩

/-- C7: every built feature row satisfies the six engineered-field
formulas exactly, and two calls with identical inputs produce identical
vectors. -/
theorem C7_engineered_feature_formulas (sp : DatasetRecord ℝ) (lake : Lake ℝ)
    (temperature ph salinity dox bod turbidity : ℝ) :
    let r := buildFeatureRow sp lake temperature ph salinity dox bod turbidity
    r.temp_pref_range = r.temp_pref_max - r.temp_pref_min ∧
    r.wb_ph_range = r.wb_ph_max - r.wb_ph_min ∧
    r.wb_temp_range = r.wb_temp_max - r.wb_temp_min ∧
    r.temp_in_pref_range =
      (if r.temp_pref_min ≤ r.input_temp ∧ r.input_temp ≤ r.temp_pref_max
       then 1 else 0) ∧
    r.fish_ph_pref = (r.wb_ph_min + r.wb_ph_max) / 2 ∧
    r.ph_difference = |r.fish_ph_pref - r.input_ph| ∧
    buildFeatureRow sp lake temperature ph salinity dox bod turbidity =
      buildFeatureRow sp lake temperature ph salinity dox bod turbidity := by
  exact ⟨rfl, rfl, rfl, rfl, rfl, rfl, rfl⟩

/-- C10: in every per-lake feature row built by the scoring
orchestrator each waterbody min field equals its max field (both the
single lake baseline value), hence wb_ph_range and wb_temp_range are 0
for every lake and every input, and fish_ph_pref equals the lake's
baseline pH rather than a species preference. -/
theorem C10_waterbody_min_eq_max (sp : DatasetRecord ℝ) (lake : Lake ℝ)
    (temperature ph salinity dox bod turbidity : ℝ) :
    let r := buildFeatureRow sp lake temperature ph salinity dox bod turbidity
    r.wb_ph_min = lake.ph ∧ r.wb_ph_max = lake.ph ∧
    r.wb_salinity_min = r.wb_salinity_max ∧
    r.wb_do_min = r.wb_do_max ∧
    r.wb_bod_min = r.wb_bod_max ∧
    r.wb_turbidity_min = r.wb_turbidity_max ∧
    r.wb_temp_min = lake.temperature ∧ r.wb_temp_max = lake.temperature ∧
    r.wb_ph_range = 0 ∧ r.wb_temp_range = 0 ∧
    r.fish_ph_pref = lake.ph := by
  refine ⟨rfl, rfl, rfl, rfl, rfl, rfl, rfl, rfl, ?_, ?_, ?_⟩
  · show lake.ph - lake.ph = 0
    ring
  · show lake.temperature - lake.temperature = 0
    ring
  · show (lake.ph + lake.ph) / 2 = lake.ph
    ring

/-! Helper lemmas about the scoring orchestrator. -/

lemma get_risk_predictions_eq_ok {α : Type} [LinearOrderedField α]
    (dataset : List (DatasetRecord α)) (lakes : List (Lake α))
    (rawProb : FeatureRow α → α) (simFn : EnvReading α → EnvReading α → α)
    (species_name : String) (sp : DatasetRecord α)
    (temperature ph salinity dox bod turbidity : α)
    (hrow : get_species_data dataset species_name = some sp) :
    Backend.get_risk_predictions dataset lakes rawProb simFn species_name
        temperature ph salinity dox bod turbidity =
      .ok (Backend.riskResultOf dataset lakes rawProb simFn species_name sp
        temperature ph salinity dox bod turbidity) := by
  unfold Backend.get_risk_predictions
  rw [hrow]

lemma riskResultOf_predictions {α : Type} [LinearOrderedField α]
    (dataset : List (DatasetRecord α)) (lakes : List (Lake α))
    (rawProb : FeatureRow α → α) (simFn : EnvReading α → EnvReading α → α)
    (species_name : String) (sp : DatasetRecord α)
    (temperature ph salinity dox bod turbidity : α) :
    (Backend.riskResultOf dataset lakes rawProb simFn species_name sp
        temperature ph salinity dox bod turbidity).predictions =
      (lakes.map (Backend.mkPrediction dataset rawProb simFn species_name sp
          ⟨ph, salinity, dox, bod, turbidity, temperature⟩
          temperature ph salinity dox bod turbidity)).mergeSort
        (fun a b => decide (b.adjusted_score ≤ a.adjusted_score)) := rfl

lemma riskResultOf_warning {α : Type} [LinearOrderedField α]
    (dataset : List (DatasetRecord α)) (lakes : List (Lake α))
    (rawProb : FeatureRow α → α) (simFn : EnvReading α → EnvReading α → α)
    (species_name : String) (sp : DatasetRecord α)
    (temperature ph salinity dox bod turbidity : α) :
    (Backend.riskResultOf dataset lakes rawProb simFn species_name sp
        temperature ph salinity dox bod turbidity).warning =
      match listMax (lakes.map (fun lake =>
          simFn ⟨ph, salinity, dox, bod, turbidity, temperature⟩ (lakeEnv lake))) with
      | some m => if m < 1 / 20 then some Backend.lowConfidenceWarning else none
      | none => none := rfl

lemma categorize_risk_cases {α : Type} [LinearOrderedField α] (s : α) :
    Backend.categorize_risk s = "Low" ∨ Backend.categorize_risk s = "Medium" ∨
      Backend.categorize_risk s = "High" := by
  unfold Backend.categorize_risk
  split_ifs <;> simp

/-- C5: a species name with no row in the species table makes the
scoring call return the species-not-found error result, with no
predictions and no partial per-lake work. -/
theorem C5_species_not_found {α : Type} [LinearOrderedField α]
    (dataset : List (DatasetRecord α)) (lakes : List (Lake α))
    (rawProb : FeatureRow α → α) (simFn : EnvReading α → EnvReading α → α)
    (species_name : String) (temperature ph salinity dox bod turbidity : α)
    (habs : ∀ r ∈ dataset, r.species ≠ species_name) :
    Backend.get_risk_predictions dataset lakes rawProb simFn species_name
        temperature ph salinity dox bod turbidity =
      .error ("Species " ++ species_name ++ " not found in dataset.") := by
  have hnone : get_species_data dataset species_name = none := by
    rw [get_species_data, List.find?_eq_none]
    intro r hr
    simpa using habs r hr
  unfold Backend.get_risk_predictions
  rw [hnone]

/-- Witness for C5: a concrete one-record dataset queried with an
unknown species name yields exactly the error value. -/
theorem C5_species_not_found_witness :
    Backend.get_risk_predictions
      [{ species := "Oreochromis niloticus", waterbody_name := some "Laguna de Bay",
         temp_pref_min := 20, temp_pref_max := 30 : DatasetRecord ℚ }]
      Backend.luzon_lakes (fun _ => 1 / 2) (fun _ _ => 1)
      "nonexistent species X" 27 7.5 0.5 6 2 10 =
      .error ("Species " ++ "nonexistent species X" ++ " not found in dataset.") :=
  C5_species_not_found _ _ _ _ _ _ _ _ _ _ _ (by decide)

/-- C6: for every successful scoring call the low-confidence warning
field is present iff the maximum similarity over all lakes is strictly
below 0.05, the warning (when present) is exactly the fixed message,
and the full predictions list is returned in either case. -/
theorem C6_warning_iff_max_similarity_low {α : Type} [LinearOrderedField α]
    (dataset : List (DatasetRecord α)) (lakes : List (Lake α))
    (rawProb : FeatureRow α → α) (simFn : EnvReading α → EnvReading α → α)
    (species_name : String) (temperature ph salinity dox bod turbidity : α)
    (sp : DatasetRecord α) (res : RiskResult α) (m : α)
    (hrow : get_species_data dataset species_name = some sp)
    (hres : Backend.get_risk_predictions dataset lakes rawProb simFn species_name
        temperature ph salinity dox bod turbidity = .ok res)
    (hmax : listMax (lakes.map (fun lake =>
        simFn ⟨ph, salinity, dox, bod, turbidity, temperature⟩ (lakeEnv lake))) =
      some m) :
    (res.warning.isSome ↔ m < 1 / 20) ∧
    (res.warning.isSome → res.warning = some Backend.lowConfidenceWarning) ∧
    res.predictions.length = lakes.length := by
  rw [get_risk_predictions_eq_ok dataset lakes rawProb simFn species_name sp
    temperature ph salinity dox bod turbidity hrow, Except.ok.injEq] at hres
  subst hres
  refine ⟨?_, ?_, ?_⟩
  · rw [riskResultOf_warning, hmax]
    by_cases hm : m < 1 / 20 <;> simp [hm]
  · rw [riskResultOf_warning, hmax]
    by_cases hm : m < 1 / 20 <;> simp [hm]
  · rw [riskResultOf_predictions, List.length_mergeSort, List.length_map]


/-- Witness for C6 at a concrete call over a one-lake table whose
constant similarity 0 is below the 0.05 cutoff, so the warning field is
present. -/
theorem C6_warning_witness :
    ((Backend.riskResultOf
        [{ species := "Anabas testudineus", waterbody_name := some "Laguna de Bay",
           temp_pref_min := 20, temp_pref_max := 30 : DatasetRecord ℚ }]
        [{ name := "Lake Taal", region := "IV-A", ph := 8.32, salinity := 0.85,
           dissolved_oxygen := 5.61, bod := 3.82, turbidity := 28.0,
           temperature := 25.5, latitude := 13.9855, longitude := 121.0073 : Lake ℚ }]
        (fun _ => 1 / 2) (fun _ _ => 0) "Anabas testudineus"
        { species := "Anabas testudineus", waterbody_name := some "Laguna de Bay",
          temp_pref_min := 20, temp_pref_max := 30 : DatasetRecord ℚ }
        27 7.5 0.5 6 2 10).warning.isSome ↔ (0 : ℚ) < 1 / 20) ∧
    ((Backend.riskResultOf
        [{ species := "Anabas testudineus", waterbody_name := some "Laguna de Bay",
           temp_pref_min := 20, temp_pref_max := 30 : DatasetRecord ℚ }]
        [{ name := "Lake Taal", region := "IV-A", ph := 8.32, salinity := 0.85,
           dissolved_oxygen := 5.61, bod := 3.82, turbidity := 28.0,
           temperature := 25.5, latitude := 13.9855, longitude := 121.0073 : Lake ℚ }]
        (fun _ => 1 / 2) (fun _ _ => 0) "Anabas testudineus"
        { species := "Anabas testudineus", waterbody_name := some "Laguna de Bay",
          temp_pref_min := 20, temp_pref_max := 30 : DatasetRecord ℚ }
        27 7.5 0.5 6 2 10).warning.isSome →
      (Backend.riskResultOf
        [{ species := "Anabas testudineus", waterbody_name := some "Laguna de Bay",
           temp_pref_min := 20, temp_pref_max := 30 : DatasetRecord ℚ }]
        [{ name := "Lake Taal", region := "IV-A", ph := 8.32, salinity := 0.85,
           dissolved_oxygen := 5.61, bod := 3.82, turbidity := 28.0,
           temperature := 25.5, latitude := 13.9855, longitude := 121.0073 : Lake ℚ }]
        (fun _ => 1 / 2) (fun _ _ => 0) "Anabas testudineus"
        { species := "Anabas testudineus", waterbody_name := some "Laguna de Bay",
          temp_pref_min := 20, temp_pref_max := 30 : DatasetRecord ℚ }
        27 7.5 0.5 6 2 10).warning = some Backend.lowConfidenceWarning) ∧
    (Backend.riskResultOf
        [{ species := "Anabas testudineus", waterbody_name := some "Laguna de Bay",
           temp_pref_min := 20, temp_pref_max := 30 : DatasetRecord ℚ }]
        [{ name := "Lake Taal", region := "IV-A", ph := 8.32, salinity := 0.85,
           dissolved_oxygen := 5.61, bod := 3.82, turbidity := 28.0,
           temperature := 25.5, latitude := 13.9855, longitude := 121.0073 : Lake ℚ }]
        (fun _ => 1 / 2) (fun _ _ => 0) "Anabas testudineus"
        { species := "Anabas testudineus", waterbody_name := some "Laguna de Bay",
          temp_pref_min := 20, temp_pref_max := 30 : DatasetRecord ℚ }
        27 7.5 0.5 6 2 10).predictions.length =
      [{ name := "Lake Taal", region := "IV-A", ph := 8.32, salinity := 0.85,
         dissolved_oxygen := 5.61, bod := 3.82, turbidity := 28.0,
         temperature := 25.5, latitude := 13.9855, longitude := 121.0073 : Lake ℚ }].length :=
  C6_warning_iff_max_similarity_low
    [{ species := "Anabas testudineus", waterbody_name := some "Laguna de Bay",
       temp_pref_min := 20, temp_pref_max := 30 : DatasetRecord ℚ }]
    [{ name := "Lake Taal", region := "IV-A", ph := 8.32, salinity := 0.85,
       dissolved_oxygen := 5.61, bod := 3.82, turbidity := 28.0,
       temperature := 25.5, latitude := 13.9855, longitude := 121.0073 : Lake ℚ }]
    (fun _ => 1 / 2) (fun _ _ => 0) "Anabas testudineus" 27 7.5 0.5 6 2 10
    { species := "Anabas testudineus", waterbody_name := some "Laguna de Bay",
      temp_pref_min := 20, temp_pref_max := 30 : DatasetRecord ℚ }
    _ 0 rfl
    (get_risk_predictions_eq_ok
      [{ species := "Anabas testudineus", waterbody_name := some "Laguna de Bay",
         temp_pref_min := 20, temp_pref_max := 30 : DatasetRecord ℚ }]
      [{ name := "Lake Taal", region := "IV-A", ph := 8.32, salinity := 0.85,
         dissolved_oxygen := 5.61, bod := 3.82, turbidity := 28.0,
         temperature := 25.5, latitude := 13.9855, longitude := 121.0073 : Lake ℚ }]
      (fun _ => 1 / 2) (fun _ _ => 0) "Anabas testudineus"
      { species := "Anabas testudineus", waterbody_name := some "Laguna de Bay",
        temp_pref_min := 20, temp_pref_max := 30 : DatasetRecord ℚ }
      27 7.5 0.5 6 2 10 rfl)
    rfl

/-- C3: every prediction produced by the scoring pipeline (with the real
exponential-decay similarity) satisfies
adjusted_score = raw_probability × similarity, the similarity lies in
(0, 1], and whenever the raw probability is nonnegative the adjustment
never amplifies it. -/
theorem C3_adjusted_score_downweights (dataset : List (DatasetRecord ℝ))
    (lakes : List (Lake ℝ)) (rawProb : FeatureRow ℝ → ℝ) (species_name : String)
    (temperature ph salinity dox bod turbidity : ℝ)
    (sp : DatasetRecord ℝ) (res : RiskResult ℝ)
    (hrow : get_species_data dataset species_name = some sp)
    (hres : Backend.get_risk_predictions dataset lakes rawProb calculate_similarity
        species_name temperature ph salinity dox bod turbidity = .ok res) :
    ∀ pr ∈ res.predictions,
      pr.adjusted_score = pr.raw_score * pr.similarity ∧
      0 < pr.similarity ∧ pr.similarity ≤ 1 ∧
      (0 ≤ pr.raw_score → pr.adjusted_score ≤ pr.raw_score) := by
  rw [get_risk_predictions_eq_ok dataset lakes rawProb calculate_similarity
    species_name sp temperature ph salinity dox bod turbidity hrow,
    Except.ok.injEq] at hres
  subst hres
  intro pr hpr
  rw [riskResultOf_predictions, List.mem_mergeSort] at hpr
  obtain ⟨lake, _, rfl⟩ := List.mem_map.mp hpr
  refine ⟨rfl, calculate_similarity_pos _ _, calculate_similarity_le_one _ _,
    fun h0 => ?_⟩
  exact mul_le_of_le_one_right h0 (calculate_similarity_le_one _ _)

/-- C8: for every successful scoring call every lake of the configured
lake table appears exactly once in the predictions, every risk level is
Low, Medium or High, the list is pairwise sorted by adjusted score
descending, and the two configured tables have 12 resp. 13 distinct
lakes. -/
theorem C8_each_lake_once_sorted {α : Type} [LinearOrderedField α]
    (dataset : List (DatasetRecord α)) (lakes : List (Lake α))
    (rawProb : FeatureRow α → α) (simFn : EnvReading α → EnvReading α → α)
    (species_name : String) (temperature ph salinity dox bod turbidity : α)
    (sp : DatasetRecord α) (res : RiskResult α)
    (hrow : get_species_data dataset species_name = some sp)
    (hnd : (lakes.map Lake.name).Nodup)
    (hres : Backend.get_risk_predictions dataset lakes rawProb simFn species_name
        temperature ph salinity dox bod turbidity = .ok res) :
    (∀ n ∈ lakes.map Lake.name,
      (res.predictions.map Prediction.lake_name).count n = 1) ∧
    (∀ pr ∈ res.predictions,
      pr.risk_level = "Low" ∨ pr.risk_level = "Medium" ∨ pr.risk_level = "High") ∧
    res.predictions.Pairwise (fun a b => b.adjusted_score ≤ a.adjusted_score) ∧
    Backend.luzon_lakes.length = 12 ∧
    (Backend.luzon_lakes.map Lake.name).Nodup ∧
    CopyBackend.luzon_lakes.length = 13 ∧
    (CopyBackend.luzon_lakes.map Lake.name).Nodup := by
  rw [get_risk_predictions_eq_ok dataset lakes rawProb simFn species_name sp
    temperature ph salinity dox bod turbidity hrow, Except.ok.injEq] at hres
  subst hres
  have hperm : (Backend.riskResultOf dataset lakes rawProb simFn species_name sp
      temperature ph salinity dox bod turbidity).predictions.Perm
      (lakes.map (Backend.mkPrediction dataset rawProb simFn species_name sp
        ⟨ph, salinity, dox, bod, turbidity, temperature⟩
        temperature ph salinity dox bod turbidity)) := by
    rw [riskResultOf_predictions]
    exact List.mergeSort_perm _ _
  have hnames : ((lakes.map (Backend.mkPrediction dataset rawProb simFn species_name sp
      ⟨ph, salinity, dox, bod, turbidity, temperature⟩
      temperature ph salinity dox bod turbidity)).map Prediction.lake_name) =
      lakes.map Lake.name := by
    rw [List.map_map]
    rfl
  refine ⟨?_, ?_, ?_, rfl, by decide, rfl, by decide⟩
  · intro n hn
    rw [(hperm.map Prediction.lake_name).count_eq, hnames]
    exact List.count_eq_one_of_mem hnd hn
  · intro pr hpr
    rw [riskResultOf_predictions, List.mem_mergeSort] at hpr
    obtain ⟨lake, _, rfl⟩ := List.mem_map.mp hpr
    exact categorize_risk_cases _
  · rw [riskResultOf_predictions]
    have hs := @List.sorted_mergeSort (Prediction α)
      (fun a b => decide (b.adjusted_score ≤ a.adjusted_score))
      (fun a b c hab hbc =>
        decide_eq_true (le_trans (of_decide_eq_true hbc) (of_decide_eq_true hab)))
      (fun a b => by
        rcases le_total b.adjusted_score a.adjusted_score with h | h <;> simp [h])
      (lakes.map (Backend.mkPrediction dataset rawProb simFn species_name sp
        ⟨ph, salinity, dox, bod, turbidity, temperature⟩
        temperature ph salinity dox bod turbidity))
    exact hs.imp (fun h => of_decide_eq_true h)

/-- Witness for C8 at a concrete one-record dataset over the full
12-lake table with constant model probability and similarity. -/
theorem C8_each_lake_once_witness :
    (∀ n ∈ Backend.luzon_lakes.map Lake.name,
      ((Backend.riskResultOf
          [{ species := "Anabas testudineus", waterbody_name := some "Laguna de Bay",
             temp_pref_min := 20, temp_pref_max := 30 : DatasetRecord ℚ }]
          Backend.luzon_lakes (fun _ => 1 / 2) (fun _ _ => 0) "Anabas testudineus"
          { species := "Anabas testudineus", waterbody_name := some "Laguna de Bay",
            temp_pref_min := 20, temp_pref_max := 30 : DatasetRecord ℚ }
          27 7.5 0.5 6 2 10).predictions.map Prediction.lake_name).count n = 1) ∧
    (∀ pr ∈ (Backend.riskResultOf
        [{ species := "Anabas testudineus", waterbody_name := some "Laguna de Bay",
           temp_pref_min := 20, temp_pref_max := 30 : DatasetRecord ℚ }]
        Backend.luzon_lakes (fun _ => 1 / 2) (fun _ _ => 0) "Anabas testudineus"
        { species := "Anabas testudineus", waterbody_name := some "Laguna de Bay",
          temp_pref_min := 20, temp_pref_max := 30 : DatasetRecord ℚ }
        27 7.5 0.5 6 2 10).predictions,
      pr.risk_level = "Low" ∨ pr.risk_level = "Medium" ∨ pr.risk_level = "High") ∧
    (Backend.riskResultOf
        [{ species := "Anabas testudineus", waterbody_name := some "Laguna de Bay",
           temp_pref_min := 20, temp_pref_max := 30 : DatasetRecord ℚ }]
        Backend.luzon_lakes (fun _ => 1 / 2) (fun _ _ => 0) "Anabas testudineus"
        { species := "Anabas testudineus", waterbody_name := some "Laguna de Bay",
          temp_pref_min := 20, temp_pref_max := 30 : DatasetRecord ℚ }
        27 7.5 0.5 6 2 10).predictions.Pairwise
      (fun a b => b.adjusted_score ≤ a.adjusted_score) ∧
    Backend.luzon_lakes.length = 12 ∧
    (Backend.luzon_lakes.map Lake.name).Nodup ∧
    CopyBackend.luzon_lakes.length = 13 ∧
    (CopyBackend.luzon_lakes.map Lake.name).Nodup :=
  C8_each_lake_once_sorted
    [{ species := "Anabas testudineus", waterbody_name := some "Laguna de Bay",
       temp_pref_min := 20, temp_pref_max := 30 : DatasetRecord ℚ }]
    Backend.luzon_lakes (fun _ => 1 / 2) (fun _ _ => 0)
    "Anabas testudineus" 27 7.5 0.5 6 2 10
    { species := "Anabas testudineus", waterbody_name := some "Laguna de Bay",
      temp_pref_min := 20, temp_pref_max := 30 : DatasetRecord ℚ }
    _ rfl (by decide)
    (get_risk_predictions_eq_ok
      [{ species := "Anabas testudineus", waterbody_name := some "Laguna de Bay",
         temp_pref_min := 20, temp_pref_max := 30 : DatasetRecord ℚ }]
      Backend.luzon_lakes (fun _ => 1 / 2) (fun _ _ => 0) "Anabas testudineus"
      { species := "Anabas testudineus", waterbody_name := some "Laguna de Bay",
        temp_pref_min := 20, temp_pref_max := 30 : DatasetRecord ℚ }
      27 7.5 0.5 6 2 10 rfl)

/-- C9: in the feature-importance aggregation every bucket percentage
equals bucket total / grand total (matched plus unmatched) × 100 when
the grand total is positive, and a grand total of 0 yields percentage 0
everywhere, including the unmatched summary, with no division fault. -/
theorem C9_importance_percentages (mapped_importance : List (String × ℚ)) :
    (∀ e ∈ (CopyBackend.get_feature_importance_analysis
        mapped_importance).aggregated_importance,
      e.percentage =
        if 0 < CopyBackend.grandTotal mapped_importance
        then e.total_importance / CopyBackend.grandTotal mapped_importance * 100
        else 0) ∧
    ((CopyBackend.get_feature_importance_analysis
        mapped_importance).unmatched_features.percentage =
      if 0 < CopyBackend.grandTotal mapped_importance
      then CopyBackend.totalUnmatched mapped_importance /
        CopyBackend.grandTotal mapped_importance * 100
      else 0) ∧
    (CopyBackend.grandTotal mapped_importance = 0 →
      (∀ e ∈ (CopyBackend.get_feature_importance_analysis
          mapped_importance).aggregated_importance, e.percentage = 0) ∧
      (CopyBackend.get_feature_importance_analysis
          mapped_importance).unmatched_features.percentage = 0) := by
  refine ⟨?_, rfl, fun h0 => ⟨?_, ?_⟩⟩
  · intro e he
    simp only [CopyBackend.get_feature_importance_analysis] at he
    rw [List.mem_mergeSort] at he
    obtain ⟨pk, _, rfl⟩ := List.mem_map.mp he
    rfl
  · intro e he
    simp only [CopyBackend.get_feature_importance_analysis] at he
    rw [List.mem_mergeSort] at he
    obtain ⟨pk, _, rfl⟩ := List.mem_map.mp he
    simp [h0]
  · simp [CopyBackend.get_feature_importance_analysis, h0]

/-- Witness for C9 at the empty importance mapping, whose grand total is
0: every percentage is 0 and no division fault occurs. -/
theorem C9_importance_witness :
    (∀ e ∈ (CopyBackend.get_feature_importance_analysis
        ([] : List (String × ℚ))).aggregated_importance, e.percentage = 0) ∧
    (CopyBackend.get_feature_importance_analysis
        ([] : List (String × ℚ))).unmatched_features.percentage = 0 :=
  (C9_importance_percentages []).2.2
    (by simp [CopyBackend.grandTotal, CopyBackend.totalMatched,
      CopyBackend.totalUnmatched, CopyBackend.bucketTotal,
      CopyBackend.unmatchedList, CopyBackend.core_params])

/-- Witness for C3 at the concrete prediction record built for one lake
from a one-record dataset with constant raw probability one half. -/
theorem C3_adjusted_score_witness :
    (Backend.mkPrediction
        [{ species := "Anabas testudineus", waterbody_name := some "Laguna de Bay",
           temp_pref_min := 20, temp_pref_max := 30 : DatasetRecord ℝ }]
        (fun _ => 1 / 2) calculate_similarity "Anabas testudineus"
        { species := "Anabas testudineus", waterbody_name := some "Laguna de Bay",
          temp_pref_min := 20, temp_pref_max := 30 : DatasetRecord ℝ }
        ⟨7.5, 0.5, 6, 2, 10, 27⟩ 27 7.5 0.5 6 2 10
        { name := "Lake Taal", region := "IV-A", ph := 8.32, salinity := 0.85,
          dissolved_oxygen := 5.61, bod := 3.82, turbidity := 28.0,
          temperature := 25.5, latitude := 13.9855,
          longitude := 121.0073 : Lake ℝ }).adjusted_score =
      (Backend.mkPrediction
        [{ species := "Anabas testudineus", waterbody_name := some "Laguna de Bay",
           temp_pref_min := 20, temp_pref_max := 30 : DatasetRecord ℝ }]
        (fun _ => 1 / 2) calculate_similarity "Anabas testudineus"
        { species := "Anabas testudineus", waterbody_name := some "Laguna de Bay",
          temp_pref_min := 20, temp_pref_max := 30 : DatasetRecord ℝ }
        ⟨7.5, 0.5, 6, 2, 10, 27⟩ 27 7.5 0.5 6 2 10
        { name := "Lake Taal", region := "IV-A", ph := 8.32, salinity := 0.85,
          dissolved_oxygen := 5.61, bod := 3.82, turbidity := 28.0,
          temperature := 25.5, latitude := 13.9855,
          longitude := 121.0073 : Lake ℝ }).raw_score *
      (Backend.mkPrediction
        [{ species := "Anabas testudineus", waterbody_name := some "Laguna de Bay",
           temp_pref_min := 20, temp_pref_max := 30 : DatasetRecord ℝ }]
        (fun _ => 1 / 2) calculate_similarity "Anabas testudineus"
        { species := "Anabas testudineus", waterbody_name := some "Laguna de Bay",
          temp_pref_min := 20, temp_pref_max := 30 : DatasetRecord ℝ }
        ⟨7.5, 0.5, 6, 2, 10, 27⟩ 27 7.5 0.5 6 2 10
        { name := "Lake Taal", region := "IV-A", ph := 8.32, salinity := 0.85,
          dissolved_oxygen := 5.61, bod := 3.82, turbidity := 28.0,
          temperature := 25.5, latitude := 13.9855,
          longitude := 121.0073 : Lake ℝ }).similarity ∧
    0 < (Backend.mkPrediction
        [{ species := "Anabas testudineus", waterbody_name := some "Laguna de Bay",
           temp_pref_min := 20, temp_pref_max := 30 : DatasetRecord ℝ }]
        (fun _ => 1 / 2) calculate_similarity "Anabas testudineus"
        { species := "Anabas testudineus", waterbody_name := some "Laguna de Bay",
          temp_pref_min := 20, temp_pref_max := 30 : DatasetRecord ℝ }
        ⟨7.5, 0.5, 6, 2, 10, 27⟩ 27 7.5 0.5 6 2 10
        { name := "Lake Taal", region := "IV-A", ph := 8.32, salinity := 0.85,
          dissolved_oxygen := 5.61, bod := 3.82, turbidity := 28.0,
          temperature := 25.5, latitude := 13.9855,
          longitude := 121.0073 : Lake ℝ }).similarity ∧
    (Backend.mkPrediction
        [{ species := "Anabas testudineus", waterbody_name := some "Laguna de Bay",
           temp_pref_min := 20, temp_pref_max := 30 : DatasetRecord ℝ }]
        (fun _ => 1 / 2) calculate_similarity "Anabas testudineus"
        { species := "Anabas testudineus", waterbody_name := some "Laguna de Bay",
          temp_pref_min := 20, temp_pref_max := 30 : DatasetRecord ℝ }
        ⟨7.5, 0.5, 6, 2, 10, 27⟩ 27 7.5 0.5 6 2 10
        { name := "Lake Taal", region := "IV-A", ph := 8.32, salinity := 0.85,
          dissolved_oxygen := 5.61, bod := 3.82, turbidity := 28.0,
          temperature := 25.5, latitude := 13.9855,
          longitude := 121.0073 : Lake ℝ }).similarity ≤ 1 ∧
    (0 ≤ (Backend.mkPrediction
        [{ species := "Anabas testudineus", waterbody_name := some "Laguna de Bay",
           temp_pref_min := 20, temp_pref_max := 30 : DatasetRecord ℝ }]
        (fun _ => 1 / 2) calculate_similarity "Anabas testudineus"
        { species := "Anabas testudineus", waterbody_name := some "Laguna de Bay",
          temp_pref_min := 20, temp_pref_max := 30 : DatasetRecord ℝ }
        ⟨7.5, 0.5, 6, 2, 10, 27⟩ 27 7.5 0.5 6 2 10
        { name := "Lake Taal", region := "IV-A", ph := 8.32, salinity := 0.85,
          dissolved_oxygen := 5.61, bod := 3.82, turbidity := 28.0,
          temperature := 25.5, latitude := 13.9855,
          longitude := 121.0073 : Lake ℝ }).raw_score →
      (Backend.mkPrediction
        [{ species := "Anabas testudineus", waterbody_name := some "Laguna de Bay",
           temp_pref_min := 20, temp_pref_max := 30 : DatasetRecord ℝ }]
        (fun _ => 1 / 2) calculate_similarity "Anabas testudineus"
        { species := "Anabas testudineus", waterbody_name := some "Laguna de Bay",
          temp_pref_min := 20, temp_pref_max := 30 : DatasetRecord ℝ }
        ⟨7.5, 0.5, 6, 2, 10, 27⟩ 27 7.5 0.5 6 2 10
        { name := "Lake Taal", region := "IV-A", ph := 8.32, salinity := 0.85,
          dissolved_oxygen := 5.61, bod := 3.82, turbidity := 28.0,
          temperature := 25.5, latitude := 13.9855,
          longitude := 121.0073 : Lake ℝ }).adjusted_score ≤
      (Backend.mkPrediction
        [{ species := "Anabas testudineus", waterbody_name := some "Laguna de Bay",
           temp_pref_min := 20, temp_pref_max := 30 : DatasetRecord ℝ }]
        (fun _ => 1 / 2) calculate_similarity "Anabas testudineus"
        { species := "Anabas testudineus", waterbody_name := some "Laguna de Bay",
          temp_pref_min := 20, temp_pref_max := 30 : DatasetRecord ℝ }
        ⟨7.5, 0.5, 6, 2, 10, 27⟩ 27 7.5 0.5 6 2 10
        { name := "Lake Taal", region := "IV-A", ph := 8.32, salinity := 0.85,
          dissolved_oxygen := 5.61, bod := 3.82, turbidity := 28.0,
          temperature := 25.5, latitude := 13.9855,
          longitude := 121.0073 : Lake ℝ }).raw_score) := by
  refine C3_adjusted_score_downweights
    [{ species := "Anabas testudineus", waterbody_name := some "Laguna de Bay",
       temp_pref_min := 20, temp_pref_max := 30 : DatasetRecord ℝ }]
    [{ name := "Lake Taal", region := "IV-A", ph := 8.32, salinity := 0.85,
       dissolved_oxygen := 5.61, bod := 3.82, turbidity := 28.0,
       temperature := 25.5, latitude := 13.9855, longitude := 121.0073 : Lake ℝ }]
    (fun _ => 1 / 2) "Anabas testudineus" 27 7.5 0.5 6 2 10
    { species := "Anabas testudineus", waterbody_name := some "Laguna de Bay",
      temp_pref_min := 20, temp_pref_max := 30 : DatasetRecord ℝ }
    _ rfl
    (get_risk_predictions_eq_ok
      [{ species := "Anabas testudineus", waterbody_name := some "Laguna de Bay",
         temp_pref_min := 20, temp_pref_max := 30 : DatasetRecord ℝ }]
      [{ name := "Lake Taal", region := "IV-A", ph := 8.32, salinity := 0.85,
         dissolved_oxygen := 5.61, bod := 3.82, turbidity := 28.0,
         temperature := 25.5, latitude := 13.9855, longitude := 121.0073 : Lake ℝ }]
      (fun _ => 1 / 2) calculate_similarity "Anabas testudineus"
      { species := "Anabas testudineus", waterbody_name := some "Laguna de Bay",
        temp_pref_min := 20, temp_pref_max := 30 : DatasetRecord ℝ }
      27 7.5 0.5 6 2 10 rfl) _ ?_
  rw [riskResultOf_predictions, List.mem_mergeSort]
  simp
